import Mathlib

/-!
Shallow embedding of the Etsy listing demo backend (server.js, most complete
variant): the POST /listings validation, the OAuth/PKCE callback, token
refresh-on-expiry, the bounded image-upload retry loop, and the file-based
token store.  Upstream HTTP calls (axios) are modelled as explicit outcome
parameters; JavaScript values occurring in request bodies are modelled by a
small inductive `JSVal` with the coercions the code uses (truthiness,
`Number(...)`, `typeof v === "number"`).
-/

namespace EtsyListing

/-- JavaScript values as they occur in the JSON request bodies the server
reads: `undefined`, `null`, booleans, finite numbers (as rationals), `NaN`,
and strings. -/
inductive JSVal where
  | undef
  | nullv
  | boolv (b : Bool)
  | num (q : Rat)
  | nan
  | str (s : String)
deriving DecidableEq, Repr

/-- JavaScript truthiness: `undefined`, `null`, `false`, `0`, `NaN` and the
empty string are falsy; everything else is truthy. -/
def jsTruthy : JSVal → Bool
  | .undef => false
  | .nullv => false
  | .boolv b => b
  | .num q => q ≠ 0
  | .nan => false
  | .str s => s ≠ ""

/-- `typeof v === "number"` (true for finite numbers and `NaN`). -/
def jsTypeofNumber : JSVal → Bool
  | .num _ => true
  | .nan => true
  | _ => false

/-- `typeof v === "string"`. -/
def jsTypeofString : JSVal → Bool
  | .str _ => true
  | _ => false

/-- Parse a decimal string the way `Number("...")` does on the simple forms
the server receives: optional sign, digits, optional fractional digits.
Whitespace-only and empty strings convert to `0`; anything else is `NaN`
(`none`). -/
def parseDecimal (s : String) : Option Rat :=
  let t := s.trim
  if t = "" then some 0
  else
    let (sign, digits) :=
      if t.startsWith "-" then ((-1 : Rat), t.drop 1)
      else if t.startsWith "+" then ((1 : Rat), t.drop 1)
      else ((1 : Rat), t)
    match digits.splitOn "." with
    | [intPart] =>
        if intPart ≠ "" ∧ intPart.all (·.isDigit) then
          some (sign * (intPart.toNat! : Rat))
        else none
    | [intPart, fracPart] =>
        if (intPart ≠ "" ∨ fracPart ≠ "") ∧ intPart.all (·.isDigit) ∧
            fracPart.all (·.isDigit) then
          some (sign * ((intPart.toNat! : Rat) +
            (fracPart.toNat! : Rat) / ((10 : Rat) ^ fracPart.length)))
        else none
    | _ => none

/-- The `Number(v)` coercion: `undefined → NaN`, `null → 0`, booleans to
`0`/`1`, numbers unchanged, strings through decimal parsing. -/
def jsToNumber : JSVal → JSVal
  | .undef => .nan
  | .nullv => .num 0
  | .boolv b => .num (if b then 1 else 0)
  | .num q => .num q
  | .nan => .nan
  | .str s =>
      match parseDecimal s with
      | some q => .num q
      | none => .nan

/-- `isNaN(v)` applied to an already-coerced numeric value. -/
def jsIsNaN : JSVal → Bool
  | .nan => true
  | _ => false

/-- Numeric value of a `JSVal` known to be a finite number (`0` otherwise;
only used under guards that exclude the other cases). -/
def numVal : JSVal → Rat
  | .num q => q
  | _ => 0

/-- `Number.isInteger(v)`: `v` is a finite number with denominator 1. -/
def jsIsInteger : JSVal → Bool
  | .num q => q.den = 1
  | _ => false

/-- `["a", "b", ...].includes(v)`: membership of a JS value in a string
array (only strings can match). -/
def jsIncludes (xs : List String) : JSVal → Bool
  | .str s => xs.contains s
  | _ => false

/-- `validPositiveNumber(val)` from the POST /listings handler:
`typeof val === "number" && val > 0` (`NaN > 0` is false). -/
def validPositiveNumber : JSVal → Bool
  | .num q => q > 0
  | _ => false

/-- The fields of the POST /listings request body that the validation
reads. -/
structure ListingBody where
  title : JSVal := .undef
  description : JSVal := .undef
  price : JSVal := .undef
  quantity : JSVal := .undef
  who_made : JSVal := .undef
  when_made : JSVal := .undef
  sku : JSVal := .undef
  taxonomy_id : JSVal := .undef
  type : JSVal := .undef
  item_weight_unit : JSVal := .undef
  item_dimensions_unit : JSVal := .undef
  item_weight : JSVal := .undef
  item_length : JSVal := .undef
  item_width : JSVal := .undef
  item_height : JSVal := .undef
deriving DecidableEq, Repr

/-- The accepted `when_made` enumeration, in source order. -/
def whenMadeValues : List String :=
  ["made_to_order", "2020_2024", "2010_2019", "2006_2009", "before_2006",
   "2000_2005", "1990s", "1980s", "1970s", "1960s", "1950s", "1940s",
   "1930s", "1920s", "1910s", "1900s", "1800s", "1700s", "before_1700"]

/-- `!title || typeof title !== "string" || !title.trim()`. -/
def requiredTextBad (v : JSVal) : Bool :=
  !jsTruthy v || !jsTypeofString v ||
    (match v with | .str s => s.trim = "" | _ => true)

/-- `price === undefined || isNaN(Number(price)) || Number(price) <= 0`. -/
def priceBad (v : JSVal) : Bool :=
  v = .undef || jsIsNaN (jsToNumber v) || numVal (jsToNumber v) ≤ 0

/-- `quantity === undefined || isNaN(Number(quantity)) ||
!Number.isInteger(Number(quantity)) || Number(quantity) <= 0`. -/
def quantityBad (v : JSVal) : Bool :=
  v = .undef || jsIsNaN (jsToNumber v) || !jsIsInteger (jsToNumber v) ||
    numVal (jsToNumber v) ≤ 0

/-- `!who_made || !["i_did","someone_else","collective"].includes(who_made)`. -/
def whoMadeBad (v : JSVal) : Bool :=
  !jsTruthy v || !jsIncludes ["i_did", "someone_else", "collective"] v

/-- `!when_made || ![...].includes(when_made)`. -/
def whenMadeBad (v : JSVal) : Bool :=
  !jsTruthy v || !jsIncludes whenMadeValues v

/-- `!taxonomy_id || isNaN(Number(taxonomy_id)) || Number(taxonomy_id) < 1`. -/
def taxonomyBad (v : JSVal) : Bool :=
  !jsTruthy v || jsIsNaN (jsToNumber v) || numVal (jsToNumber v) < 1

/-- `type && !["physical","download","both"].includes(type)`. -/
def typeBad (v : JSVal) : Bool :=
  jsTruthy v && !jsIncludes ["physical", "download", "both"] v

/-- `item_weight_unit && !["oz","lb","g","kg"].includes(item_weight_unit)`. -/
def weightUnitBad (v : JSVal) : Bool :=
  jsTruthy v && !jsIncludes ["oz", "lb", "g", "kg"] v

/-- `item_dimensions_unit && !["in","ft","mm","cm","m","yd","inches"]
.includes(item_dimensions_unit)`. -/
def dimensionsUnitBad (v : JSVal) : Bool :=
  jsTruthy v && !jsIncludes ["in", "ft", "mm", "cm", "m", "yd", "inches"] v

/-- A physical-dimension check inside the `type === "physical"` block:
`v !== undefined && !validPositiveNumber(v)`. -/
def physicalDimBad (v : JSVal) : Bool :=
  v ≠ .undef && !validPositiveNumber v

/-- The validation of the POST /listings handler, accumulating error
messages in the order the source pushes them. -/
def validateListing (b : ListingBody) : List String :=
  (if requiredTextBad b.title then ["title is required"] else []) ++
  (if requiredTextBad b.description then ["description is required"] else []) ++
  (if priceBad b.price then ["price must be a positive number"] else []) ++
  (if quantityBad b.quantity then ["quantity must be a positive integer"] else []) ++
  (if whoMadeBad b.who_made then
    ["who_made must be one of: i_did, someone_else, collective"] else []) ++
  (if whenMadeBad b.when_made then ["Invalid when_made value"] else []) ++
  (if !jsTruthy b.sku then ["Sku required"] else []) ++
  (if taxonomyBad b.taxonomy_id then ["taxonomy_id must be a positive integer"] else []) ++
  (if typeBad b.type then ["type must be one of: physical, download, both"] else []) ++
  (if weightUnitBad b.item_weight_unit then
    ["item_weight_unit must be one of: oz, lb, g, kg"] else []) ++
  (if dimensionsUnitBad b.item_dimensions_unit then
    ["item_dimensions_unit must be one of: in, ft, mm, cm, m, yd, inches"] else []) ++
  (if b.type = .str "physical" then
    (if physicalDimBad b.item_weight then
      ["item_weight must be a positive number if set"] else []) ++
    (if physicalDimBad b.item_length then
      ["item_length must be a positive number if set"] else []) ++
    (if physicalDimBad b.item_width then
      ["item_width must be a positive number if set"] else []) ++
    (if physicalDimBad b.item_height then
      ["item_height must be a positive number if set"] else [])
  else [])

/-- `if (errors.length) return res.status(400).json({ errors })`: the
validation response, `some (400, errors)` when any violation was found,
`none` when validation passes and the handler proceeds upstream. -/
def listingsValidationResult (b : ListingBody) : Option (Nat × List String) :=
  if validateListing b ≠ [] then some (400, validateListing b) else none

/-- Whether `pat` is a prefix of `l` (over raw character lists). -/
def isPrefixChars : List Char → List Char → Bool
  | [], _ => true
  | _ :: _, [] => false
  | a :: as, b :: bs => a = b && isPrefixChars as bs

/-- Whether `pat` occurs in the list, at this position or later. -/
def containsChars (pat : List Char) : List Char → Bool
  | [] => isPrefixChars pat []
  | b :: bs => isPrefixChars pat (b :: bs) || containsChars pat bs

/-- `s.includes(pat)`: substring containment (an empty pattern is contained
in every string, matching JS). -/
def containsSubstr (s pat : String) : Bool :=
  containsChars pat.data s.data

/-- Truthiness of an optional string value (`undefined` and `""` are
falsy). -/
def strTruthy : Option String → Bool
  | some s => s ≠ ""
  | none => false

/-- The token record the OAuth endpoints persist under the `etsy` key. -/
structure EtsyTokens where
  access_token : Option String := none
  refresh_token : Option String := none
  expires_in : Option Nat := none
  scope : Option String := none
deriving DecidableEq, Repr

/-- The parsed content of the token file: `{}` is `etsy := none`. -/
structure Store where
  etsy : Option EtsyTokens := none
deriving DecidableEq, Repr

/-- State of the token file on disk. -/
inductive TokenFile where
  | missing
  | stored (content : String)
deriving DecidableEq, Repr

/-- `readTokens()`: returns `{}` when the file does not exist, otherwise
parses its content, returning `{}` when the host parser throws.  The host
`JSON.parse` is the explicit `parse` parameter; a thrown parse exception is
its `.error` case.  The result is `Except` so that "never throws" is a
statement, not a typing artifact. -/
def readTokens (parse : String → Except String Store) :
    TokenFile → Except String Store
  | .missing => .ok {}
  | .stored s =>
      match parse s with
      | .ok o => .ok o
      | .error _ => .ok {}

/-- An entry of the in-memory PKCE store: `{ code_verifier, createdAt }`. -/
structure PkceEntry where
  code_verifier : String
  createdAt : Nat
deriving DecidableEq, Repr

/-- The in-memory `pkceStore` (state → entry); single binding per key. -/
abbrev PkceMap := List (String × PkceEntry)

/-- `delete pkceStore[state]`. -/
def pkceDelete (m : PkceMap) (st : String) : PkceMap :=
  m.filter (fun p => p.1 ≠ st)

/-- A response the server writes: status code and body (success JSON bodies
are summarised by their fixed message). -/
structure HttpResponse where
  status : Nat
  body : String
deriving DecidableEq, Repr

/-- Query parameters of GET /auth/callback (Express query values are
strings when present). -/
structure CallbackQuery where
  code : Option String := none
  state : Option String := none
  error : Option String := none
  error_description : Option String := none
deriving DecidableEq, Repr

/-- Outcome of the upstream token-exchange POST. -/
inductive ExchangeOutcome where
  | ok (tokens : EtsyTokens)
  | fail
deriving DecidableEq, Repr

/-- Result of a GET /auth/callback request: the response written, whether
the token exchange was attempted, and the PKCE map and token store after
the request. -/
structure CallbackResult where
  response : HttpResponse
  exchangeAttempted : Bool
  pkce : PkceMap
  store : Store
deriving DecidableEq, Repr

/-- GET /auth/callback: reject on an `error` parameter or missing
code/state; look up the verifier by state and reject with 400 when absent;
otherwise delete the entry, exchange the code, and persist the returned
tokens on success (500 and no store change on a failed exchange). -/
def authCallback (q : CallbackQuery) (exchange : ExchangeOutcome)
    (pkce : PkceMap) (store : Store) : CallbackResult :=
  if strTruthy q.error then
    ⟨⟨400, "Auth error: " ++ q.error.getD "" ++ " - " ++
        q.error_description.getD ""⟩, false, pkce, store⟩
  else if !strTruthy q.code || !strTruthy q.state then
    ⟨⟨400, "Missing code or state"⟩, false, pkce, store⟩
  else
    match pkce.lookup (q.state.getD "") with
    | none =>
        ⟨⟨400, "Missing PKCE verifier for this state. Try logging in again."⟩,
          false, pkce, store⟩
    | some _entry =>
        let pkce1 := pkceDelete pkce (q.state.getD "")
        match exchange with
        | .ok tokens =>
            ⟨⟨200, "OAuth success - tokens saved (demo)."⟩, true, pkce1,
              { store with etsy := some tokens }⟩
        | .fail =>
            ⟨⟨500, "Token exchange failed. Check server logs for details."⟩,
              true, pkce1, store⟩

/-- Outcome of the lightweight GET users/me validity probe:
`dataError` is `err.response?.data?.error` and `dataDescription` is
`err.response?.data?.error_description`. -/
inductive ProbeOutcome where
  | ok
  | fail (dataError : Option String) (dataDescription : Option String)
deriving DecidableEq, Repr

/-- Outcome of the upstream refresh-token POST. -/
inductive RefreshOutcome where
  | ok (tokens : EtsyTokens)
  | fail
deriving DecidableEq, Repr

/-- Result of `getValidAccessToken`: the value returned to the route
handler, the response written inside the helper (if any), the store after
any persistence, whether the refresh call was made (and with which stored
refresh token), and whether the probe error was rethrown. -/
structure TokenFetchResult where
  token : Option String
  sent : Option HttpResponse
  store : Store
  refreshCalledWith : Option String
  rethrown : Bool
deriving DecidableEq, Repr

/-- `err.response?.data?.error === "invalid_token" ||
err.response?.data?.error_description?.includes("expired")`. -/
def invalidTokenSignal (dataError dataDescription : Option String) : Bool :=
  dataError = some "invalid_token" ||
    (match dataDescription with
     | some d => containsSubstr d "expired"
     | none => false)

/-- `getAccessTokenOr401`: the stored access token, or a 401 response when
none is stored. -/
def getAccessTokenOr401 (store : Store) : Option String × Option HttpResponse :=
  let access := store.etsy.bind (·.access_token)
  if !strTruthy access then
    (none, some ⟨401, "No access token available. Authenticate via /auth/login"⟩)
  else (access, none)

/-- `getValidAccessToken`: probe validity with GET users/me; on an
invalid/expired signal, refresh with the stored refresh token and persist
the new record, or return `null` with no response written when no refresh
token is stored; 401 when the refresh call itself fails; rethrow any other
probe error. -/
def getValidAccessToken (probe : ProbeOutcome) (refresh : RefreshOutcome)
    (store : Store) : TokenFetchResult :=
  match getAccessTokenOr401 store with
  | (none, sent) => ⟨none, sent, store, none, false⟩
  | (some access, _) =>
      match probe with
      | .ok => ⟨some access, none, store, none, false⟩
      | .fail de dd =>
          if invalidTokenSignal de dd then
            let refresh_token := store.etsy.bind (·.refresh_token)
            if !strTruthy refresh_token then
              ⟨none, none, store, none, false⟩
            else
              match refresh with
              | .ok tokens =>
                  ⟨tokens.access_token, none, { store with etsy := some tokens },
                    refresh_token, false⟩
              | .fail =>
                  ⟨none, some ⟨401, "Token refresh failed. Re-authenticate."⟩,
                    store, refresh_token, false⟩
          else
            ⟨none, none, store, none, true⟩

/-- An axios failure as the catch blocks see it: `err.response?.status`,
`err.response?.data` (serialised), and `err.message`. -/
structure UpstreamFailure where
  respStatus : Option Nat := none
  respData : Option String := none
  message : String := ""
deriving DecidableEq, Repr

/-- `err.response?.data || err.message`. -/
def errBody (e : UpstreamFailure) : String :=
  match e.respData with
  | some d => if d ≠ "" then d else e.message
  | none => e.message

/-- `err.response?.status || 500`. -/
def errStatus (e : UpstreamFailure) : Nat :=
  match e.respStatus with
  | some n => if n ≠ 0 then n else 500
  | none => 500

/-- The catch of POST /listings (and of /me, /return-policies,
/shops/listings, /shops/shipping-profiles): relay the upstream status and
body where available, defaulting to 500 and the error message. -/
def relayCatch (e : UpstreamFailure) : HttpResponse :=
  ⟨errStatus e, errBody e⟩

/-- The catch of the token exchange in GET /auth/callback: a fixed 500. -/
def authCallbackCatch (_e : UpstreamFailure) : HttpResponse :=
  ⟨500, "Token exchange failed. Check server logs for details."⟩

/-- The catch of POST /token/refresh: a fixed 500. -/
def tokenRefreshCatch (_e : UpstreamFailure) : HttpResponse :=
  ⟨500, "Token refresh failed."⟩

/-- Outcome of one iteration body of the upload retry loop (the download
when the source is a remote URL, then the multipart POST): the upstream
returned a `listing_image_id`; returned without one; or threw, with
`err.response?.data?.error || err.message` as `errorMsg`.  (`errorMsg`
falsy in JS means the empty string, which never contains the nonempty
transient pattern, so the `errorMsg &&` guard is subsumed by the
containment test.) -/
inductive UploadOutcome where
  | ok (listing_image_id : Nat)
  | okNoId
  | err (errorMsg : String)
deriving DecidableEq, Repr

/-- The transient upstream message the retry loop looks for. -/
def transientEditMsg : String := "is being edited by another process"

/-- The multipart form each attempt posts: the image content source and
`rank` appended as `String(i + 1)`. -/
structure ImgForm where
  image : String
  rank : String
deriving DecidableEq, Repr

/-- The `while (attempt < maxRetries)` loop of `uploadImageWithRetry`:
on a response with a `listing_image_id`, return it as a string; on a
response without one, break (null); on a thrown error containing the
transient message while `attempt < maxRetries - 1`, wait and retry;
otherwise break (null).  Returns the result and the number of attempts
performed. -/
def uploadAttemptLoop (post : ImgForm → Nat → UploadOutcome) (form : ImgForm)
    (maxRetries attempt : Nat) : Option String × Nat :=
  if _h : attempt < maxRetries then
    match post form attempt with
    | .ok id => (some (toString id), attempt + 1)
    | .okNoId => (none, attempt + 1)
    | .err msg =>
        if containsSubstr msg transientEditMsg = true ∧ attempt < maxRetries - 1 then
          uploadAttemptLoop post form maxRetries (attempt + 1)
        else (none, attempt + 1)
  else (none, attempt)
termination_by maxRetries - attempt

/-- `uploadImageWithRetry(filePath, i, maxRetries = 3)`: run the retry loop
on the form whose `rank` field is `String(i + 1)`. -/
def uploadImageWithRetry (post : ImgForm → Nat → UploadOutcome)
    (filePath : String) (i : Nat) (maxRetries : Nat) : Option String × Nat :=
  uploadAttemptLoop post ⟨filePath, toString (i + 1)⟩ maxRetries 0

/-- The sequential `for (let i = 0; ...)` upload loop from index `i`:
each entry is uploaded in order and a returned id is pushed. -/
def uploadImagesFrom (post : Nat → ImgForm → Nat → UploadOutcome)
    (files : List String) (i : Nat) : List String :=
  match files with
  | [] => []
  | f :: rest =>
      match (uploadImageWithRetry (post i) f i 3).1 with
      | some id => id :: uploadImagesFrom post rest (i + 1)
      | none => uploadImagesFrom post rest (i + 1)

/-- `uploadedImageIds`, returned as `listing_images_id` in the POST
/listings response. -/
def listingImagesId (post : Nat → ImgForm → Nat → UploadOutcome)
    (files : List String) : List String :=
  uploadImagesFrom post files 0

/-! ## Helper lemmas -/

theorem mem_ite_singleton {α : Type} {a b : α} {c : Prop} [Decidable c] :
    (a ∈ if c then [b] else []) ↔ c ∧ a = b := by
  by_cases h : c <;> simp [h]

theorem mem_ite_nil {α : Type} {a : α} {l : List α} {c : Prop} [Decidable c] :
    (a ∈ if c then l else []) ↔ c ∧ a ∈ l := by
  by_cases h : c <;> simp [h]

/-! ## Validation claims -/

/-- Claim C3: a POST /listings body whose `title` and `description` both
fail the required-string check (missing, empty, non-string, or
whitespace-only) is answered with status 400, and the errors array contains
both the title violation and the description violation, together with every
other violation found (the response carries the full computed list). -/
theorem validateListing_missing_title_description (b : ListingBody)
    (ht : requiredTextBad b.title = true)
    (hd : requiredTextBad b.description = true) :
    "title is required" ∈ validateListing b ∧
    "description is required" ∈ validateListing b ∧
    listingsValidationResult b = some (400, validateListing b) := by
  have h1 : "title is required" ∈ validateListing b := by
    simp [validateListing, ht]
  have h2 : "description is required" ∈ validateListing b := by
    simp [validateListing, hd]
  refine ⟨h1, h2, ?_⟩
  have hne : validateListing b ≠ [] := by
    intro h
    rw [h] at h1
    exact absurd h1 (List.not_mem_nil _)
  simp [listingsValidationResult, hne]

/-- Witness for C3 at the empty body. -/
theorem validateListing_missing_title_description_witness :
    "title is required" ∈ validateListing {} ∧
    "description is required" ∈ validateListing {} ∧
    listingsValidationResult {} = some (400, validateListing {}) :=
  validateListing_missing_title_description {} rfl rfl

/-- Claim C7: a POST /listings body whose `when_made` is absent or not a
member of the accepted enumeration is rejected: "Invalid when_made value"
is among the violations and the response is 400 with the full error
list. -/
theorem validateListing_when_made_enum (b : ListingBody)
    (h : b.when_made = .undef ∨ ∀ s ∈ whenMadeValues, b.when_made ≠ .str s) :
    "Invalid when_made value" ∈ validateListing b ∧
    listingsValidationResult b = some (400, validateListing b) := by
  have hbad : whenMadeBad b.when_made = true := by
    rcases h with h | h
    · rw [h]; rfl
    · cases hv : b.when_made
      case str s0 =>
        have hs : s0 ∉ whenMadeValues := fun hmem => (h s0 hmem) (by rw [hv])
        simp [whenMadeBad, jsIncludes, hs]
      all_goals simp [whenMadeBad, jsIncludes]
  have h1 : "Invalid when_made value" ∈ validateListing b := by
    simp [validateListing, hbad]
  refine ⟨h1, ?_⟩
  have hne : validateListing b ≠ [] := by
    intro hh
    rw [hh] at h1
    exact absurd h1 (List.not_mem_nil _)
  simp [listingsValidationResult, hne]

/-- Witness for C7 at the empty body (absent `when_made`). -/
theorem validateListing_when_made_enum_witness :
    "Invalid when_made value" ∈ validateListing {} ∧
    listingsValidationResult {} = some (400, validateListing {}) :=
  validateListing_when_made_enum {} (Or.inl rfl)

/-! ## OAuth callback claims -/

/-- Claim C4: a GET /auth/callback request carrying a code and a state
whose state key is absent from the PKCE session map is rejected with status
400 and no token exchange is attempted. -/
theorem authCallback_unknown_state_rejected (q : CallbackQuery)
    (ex : ExchangeOutcome) (pkce : PkceMap) (store : Store)
    (herr : strTruthy q.error = false)
    (hcode : strTruthy q.code = true)
    (hstate : strTruthy q.state = true)
    (hlook : pkce.lookup (q.state.getD "") = none) :
    (authCallback q ex pkce store).response.status = 400 ∧
    (authCallback q ex pkce store).response.body =
      "Missing PKCE verifier for this state. Try logging in again." ∧
    (authCallback q ex pkce store).exchangeAttempted = false := by
  simp [authCallback, herr, hcode, hstate, hlook]

/-- Witness for C4: a callback with code and state against an empty PKCE
map. -/
theorem authCallback_unknown_state_rejected_witness :
    (authCallback ⟨some "abc", some "stX", none, none⟩ .fail [] {}).response.status = 400 ∧
    (authCallback ⟨some "abc", some "stX", none, none⟩ .fail [] {}).response.body =
      "Missing PKCE verifier for this state. Try logging in again." ∧
    (authCallback ⟨some "abc", some "stX", none, none⟩ .fail [] {}).exchangeAttempted = false :=
  authCallback_unknown_state_rejected ⟨some "abc", some "stX", none, none⟩ .fail [] {}
    rfl rfl rfl rfl

theorem lookup_pkceDelete_self (m : PkceMap) (st : String) :
    (pkceDelete m st).lookup st = none := by
  induction m with
  | nil => rfl
  | cons a t ih =>
      obtain ⟨k, v⟩ := a
      by_cases h : k = st
      · simpa [pkceDelete, List.filter_cons, h] using ih
      · have hbeq : (st == k) = false := by
          rw [beq_eq_false_iff_ne]
          exact fun e => h e.symm
        simpa [pkceDelete, List.filter_cons, h, List.lookup, hbeq] using ih

theorem lookup_pkceDelete_ne (m : PkceMap) (st s2 : String) (h : s2 ≠ st) :
    (pkceDelete m st).lookup s2 = m.lookup s2 := by
  induction m with
  | nil => rfl
  | cons a t ih =>
      obtain ⟨k, v⟩ := a
      by_cases hk : k = st
      · have hbeq : (s2 == st) = false := by
          rw [beq_eq_false_iff_ne]
          exact h
        simpa [pkceDelete, List.filter_cons, hk, List.lookup, hbeq] using ih
      · cases hbeq : (s2 == k) with
        | true => simp [pkceDelete, List.filter_cons, hk, List.lookup, hbeq]
        | false =>
            simpa [pkceDelete, List.filter_cons, hk, List.lookup, hbeq] using ih

/-- A concrete callback query used by the C5 counterexample and witness. -/
def cbQuery5 : CallbackQuery := { code := some "authcode", state := some "st1" }

/-- Claim C5 counterexample: with the state present in the PKCE map and the
token exchange failing, the handler still deletes the entry before the
exchange: the map is empty afterwards although the callback did not succeed
(status 500), contradicting "on a failed exchange the entry remains". -/
theorem authCallback_failed_exchange_entry_deleted :
    (authCallback cbQuery5 .fail [("st1", ⟨"verif1", 0⟩)] {}).response.status = 500 ∧
    (authCallback cbQuery5 .fail [("st1", ⟨"verif1", 0⟩)] {}).exchangeAttempted = true ∧
    (authCallback cbQuery5 .fail [("st1", ⟨"verif1", 0⟩)] {}).pkce = [] :=
  ⟨rfl, rfl, rfl⟩

/-- Claim C5 (amended): once the callback finds the state in the PKCE map,
the entry is deleted before the token exchange, whether or not the exchange
succeeds; entries under other states are untouched (no sweep removes
them). -/
theorem authCallback_state_consumed_unconditionally (q : CallbackQuery)
    (ex : ExchangeOutcome) (pkce : PkceMap) (store : Store) (e : PkceEntry)
    (herr : strTruthy q.error = false)
    (hcode : strTruthy q.code = true)
    (hstate : strTruthy q.state = true)
    (hlook : pkce.lookup (q.state.getD "") = some e) :
    (authCallback q ex pkce store).pkce.lookup (q.state.getD "") = none ∧
    ∀ s2, s2 ≠ q.state.getD "" →
      (authCallback q ex pkce store).pkce.lookup s2 = pkce.lookup s2 := by
  constructor
  · cases ex <;>
      simp [authCallback, herr, hcode, hstate, hlook, lookup_pkceDelete_self]
  · intro s2 hs2
    cases ex <;>
      simp [authCallback, herr, hcode, hstate, hlook,
        lookup_pkceDelete_ne _ _ _ hs2]

/-- Witness for the amended C5 on a successful exchange: the consumed entry
is gone from the map. -/
theorem authCallback_state_consumed_unconditionally_witness :
    (authCallback cbQuery5 (.ok {}) [("st1", ⟨"verif1", 0⟩)] {}).pkce.lookup "st1" = none :=
  (authCallback_state_consumed_unconditionally cbQuery5 (.ok {})
    [("st1", ⟨"verif1", 0⟩)] {} ⟨"verif1", 0⟩ rfl rfl rfl rfl).1

/-! ## Token refresh claims -/

/-- Store with an access token but no refresh token (C2 counterexample). -/
def storeNoRefresh : Store := { etsy := some { access_token := some "tokA" } }

/-- Claim C2 counterexample: with a stored access token but no stored
refresh token, a probe failure signalling `invalid_token` makes
`getValidAccessToken` return null without writing any error response and
without calling refresh — nothing reports an error to the caller,
contradicting "the operation fails (reports an error to the caller)". -/
theorem getValidAccessToken_no_refresh_silent :
    (getValidAccessToken (.fail (some "invalid_token") none) .fail storeNoRefresh).token = none ∧
    (getValidAccessToken (.fail (some "invalid_token") none) .fail storeNoRefresh).sent = none ∧
    (getValidAccessToken (.fail (some "invalid_token") none) .fail storeNoRefresh).refreshCalledWith = none :=
  ⟨rfl, rfl, rfl⟩

/-- Claim C2 (amended): when the validity probe fails with an
invalid/expired-token signal and a refresh token is stored, the refresh
call is made with that stored refresh token, the new token record is
persisted to the store, and the new access token is returned; when no
refresh token is stored, the helper returns null without writing any
response, so no error is reported to the caller. -/
theorem getValidAccessToken_refresh_on_invalid (de dd : Option String)
    (refresh : RefreshOutcome) (store : Store) (t : EtsyTokens)
    (hstore : store.etsy = some t)
    (hacc : strTruthy t.access_token = true)
    (hsig : invalidTokenSignal de dd = true) :
    (strTruthy t.refresh_token = true →
      ∀ newTok, getValidAccessToken (.fail de dd) (.ok newTok) store =
        ⟨newTok.access_token, none, { etsy := some newTok }, t.refresh_token, false⟩) ∧
    (strTruthy t.refresh_token = false →
      getValidAccessToken (.fail de dd) refresh store =
        ⟨none, none, store, none, false⟩) := by
  cases hat : t.access_token with
  | none => rw [hat] at hacc; exact absurd hacc (by simp [strTruthy])
  | some a =>
      rw [hat] at hacc
      constructor
      · intro hrt newTok
        simp [getValidAccessToken, getAccessTokenOr401, hstore, hat, hacc,
          hsig, hrt]
      · intro hrt
        simp [getValidAccessToken, getAccessTokenOr401, hstore, hat, hacc,
          hsig, hrt]

/-- Store with both an access and a refresh token (C2 witness). -/
def storeWithRefresh : Store :=
  { etsy := some { access_token := some "tokA", refresh_token := some "refB" } }

/-- Witness for the amended C2: an expired-token probe failure triggers a
refresh with the stored refresh token, persists the new record, and returns
the new access token. -/
theorem getValidAccessToken_refresh_on_invalid_witness :
    getValidAccessToken (.fail none (some "access token expired"))
        (.ok { access_token := some "newTok" }) storeWithRefresh =
      ⟨some "newTok", none, { etsy := some { access_token := some "newTok" } },
        some "refB", false⟩ :=
  (getValidAccessToken_refresh_on_invalid none (some "access token expired")
    .fail storeWithRefresh { access_token := some "tokA", refresh_token := some "refB" }
    rfl rfl (by decide)).1 rfl { access_token := some "newTok" }

/-! ## Upstream error relay claims -/

/-- A concrete upstream failure carrying a response (C8). -/
def upstreamFail400 : UpstreamFailure :=
  { respStatus := some 400, respData := some "upstream body",
    message := "Request failed with status code 400" }

/-- Claim C8 counterexample: the GET /auth/callback catch does not relay
the upstream status and body even when the failed call carried a response —
it always answers 500 with a fixed text (and POST /token/refresh behaves
the same), contradicting "this holds across the proxy endpoints including
... GET /auth/callback, and POST /token/refresh". -/
theorem authCallbackCatch_not_relaying :
    authCallbackCatch upstreamFail400 ≠
      ⟨upstreamFail400.respStatus.getD 500, upstreamFail400.respData.getD ""⟩ ∧
    authCallbackCatch upstreamFail400 =
      ⟨500, "Token exchange failed. Check server logs for details."⟩ ∧
    tokenRefreshCatch upstreamFail400 = ⟨500, "Token refresh failed."⟩ := by
  refine ⟨?_, rfl, rfl⟩
  intro h
  exact absurd (congrArg HttpResponse.status h) (by decide)

/-- Claim C8 (amended): the catch of POST /listings (shared in shape by the
GET proxy endpoints) relays the upstream status code and body when the
failed call carried a response, and defaults to 500 with the error message
otherwise; GET /auth/callback and POST /token/refresh instead always answer
500 with a fixed message. -/
theorem upstream_error_relay (e : UpstreamFailure) :
    (∀ s d, e.respStatus = some s → s ≠ 0 → e.respData = some d → d ≠ "" →
      relayCatch e = ⟨s, d⟩) ∧
    (e.respStatus = none → e.respData = none → relayCatch e = ⟨500, e.message⟩) ∧
    authCallbackCatch e =
      ⟨500, "Token exchange failed. Check server logs for details."⟩ ∧
    tokenRefreshCatch e = ⟨500, "Token refresh failed."⟩ := by
  refine ⟨?_, ?_, rfl, rfl⟩
  · intro s d hs hs0 hd hd0
    simp [relayCatch, errStatus, errBody, hs, hs0, hd, hd0]
  · intro hs hd
    simp [relayCatch, errStatus, errBody, hs, hd]

/-- Witness for the amended C8: a 400 upstream failure with a body is
relayed as 400 with that body by the POST /listings catch. -/
theorem upstream_error_relay_witness :
    relayCatch upstreamFail400 = ⟨400, "upstream body"⟩ :=
  (upstream_error_relay upstreamFail400).1 400 "upstream body" rfl
    (by decide) rfl (by decide)

/-! ## Token store claims -/

/-- Claim C9: `readTokens` is total and never throws: it returns the parsed
object when the file exists and its content parses, and the empty object
both when the file is missing and when parsing throws, so no endpoint
observes a token-store read error. -/
theorem readTokens_total_never_throws (parse : String → Except String Store) :
    (∀ f, ∃ o, readTokens parse f = .ok o) ∧
    readTokens parse .missing = .ok {} ∧
    (∀ s o, parse s = .ok o → readTokens parse (.stored s) = .ok o) ∧
    (∀ s e, parse s = .error e → readTokens parse (.stored s) = .ok {}) := by
  refine ⟨?_, rfl, ?_, ?_⟩
  · intro f
    cases f with
    | missing => exact ⟨{}, rfl⟩
    | stored s =>
        cases hp : parse s with
        | ok o => exact ⟨o, by simp [readTokens, hp]⟩
        | error e => exact ⟨{}, by simp [readTokens, hp]⟩
  · intro s o hp
    simp [readTokens, hp]
  · intro s e hp
    simp [readTokens, hp]

/-- A demo host parser for the C9 witness: fails on one input, succeeds
elsewhere. -/
def demoParse : String → Except String Store :=
  fun s => if s = "bad json" then .error "Unexpected token" else .ok {}

/-- Witness for C9: the fallback to the empty object on a parse failure and
on a missing file, at a concrete parser. -/
theorem readTokens_total_never_throws_witness :
    readTokens demoParse (.stored "bad json") = .ok {} ∧
    readTokens demoParse .missing = .ok {} :=
  ⟨(readTokens_total_never_throws demoParse).2.2.2 "bad json" "Unexpected token"
      (by simp [demoParse]),
    (readTokens_total_never_throws demoParse).2.1⟩

/-! ## Image upload retry claims -/

theorem uploadAttemptLoop_all_transient (post : ImgForm → Nat → UploadOutcome)
    (form : ImgForm)
    (h : ∀ k, k < 3 → ∃ m, post form k = .err m ∧
      containsSubstr m transientEditMsg = true) :
    uploadAttemptLoop post form 3 0 = (none, 3) := by
  obtain ⟨m0, h0, t0⟩ := h 0 (by norm_num)
  obtain ⟨m1, h1, t1⟩ := h 1 (by norm_num)
  obtain ⟨m2, h2, t2⟩ := h 2 (by norm_num)
  rw [uploadAttemptLoop]
  simp only [h0, t0, show (0:Nat) < 3 by norm_num, dif_pos, true_and,
    show (0:Nat) < 3 - 1 by norm_num, if_pos]
  rw [uploadAttemptLoop]
  simp only [h1, t1, show (1:Nat) < 3 by norm_num, dif_pos, true_and,
    show (1:Nat) < 3 - 1 by norm_num, if_pos]
  rw [uploadAttemptLoop]
  simp [h2, t2]

theorem uploadAttemptLoop_attempts_le (post : ImgForm → Nat → UploadOutcome)
    (form : ImgForm) :
    ∀ fuel maxRetries attempt, maxRetries ≤ attempt + fuel →
      attempt ≤ maxRetries →
      (uploadAttemptLoop post form maxRetries attempt).2 ≤ maxRetries := by
  intro fuel
  induction fuel with
  | zero =>
      intro maxR attempt hf ha
      have hlt : ¬ attempt < maxR := by omega
      rw [uploadAttemptLoop]
      simp [hlt, ha]
  | succ n ih =>
      intro maxR attempt hf ha
      rw [uploadAttemptLoop]
      by_cases hlt : attempt < maxR
      · simp only [dif_pos hlt]
        cases hpost : post form attempt with
        | ok id => simpa using hlt
        | okNoId => simpa using hlt
        | err msg =>
            dsimp only
            by_cases hc : containsSubstr msg transientEditMsg = true ∧
                attempt < maxR - 1
            · rw [if_pos hc]
              exact ih maxR (attempt + 1) (by omega) (by omega)
            · rw [if_neg hc]
              simpa using hlt
      · simp [hlt, ha]

theorem uploadImagesFrom_eq (post : Nat → ImgForm → Nat → UploadOutcome)
    (files : List String) : ∀ i,
    uploadImagesFrom post files i =
      (List.range files.length).filterMap fun k =>
        (uploadImageWithRetry (post (i + k)) (files.getD k "") (i + k) 3).1 := by
  induction files with
  | nil => intro i; simp [uploadImagesFrom]
  | cons f rest ih =>
      intro i
      have hrange : List.range (rest.length + 1) =
          0 :: (List.range rest.length).map Nat.succ :=
        List.range_succ_eq_map rest.length
      rw [List.length_cons, hrange, List.filterMap_cons, List.filterMap_map]
      have hcomp : ∀ k,
          ((fun k => (uploadImageWithRetry (post (i + k))
              ((f :: rest).getD k "") (i + k) 3).1) ∘ Nat.succ) k =
          (fun k => (uploadImageWithRetry (post ((i + 1) + k))
              (rest.getD k "") ((i + 1) + k) 3).1) k := by
        intro k
        have : i + (k + 1) = (i + 1) + k := by omega
        simp [Function.comp, Nat.succ_eq_add_one, this]
      rw [List.filterMap_congr (fun k _ => hcomp k), ← ih (i + 1)]
      simp only [Nat.add_zero, List.getD_cons_zero]
      rw [uploadImagesFrom]
      cases (uploadImageWithRetry (post i) f i 3).1 <;> rfl

/-- `listing_images_id` is the in-order filterMap of the per-entry retry
results over the indices of `image_files`. -/
theorem listingImagesId_eq_filterMap (post : Nat → ImgForm → Nat → UploadOutcome)
    (files : List String) :
    listingImagesId post files =
      (List.range files.length).filterMap fun k =>
        (uploadImageWithRetry (post k) (files.getD k "") k 3).1 := by
  rw [listingImagesId, uploadImagesFrom_eq post files 0]
  exact List.filterMap_congr (fun k _ => by simp)

/-- Claim C1: when every upload attempt for entry `j` of `image_files`
fails with an upstream message containing the transient "is being edited by
another process" string, `uploadImageWithRetry` performs exactly the fixed
bound of 3 attempts (`maxRetries`) and returns null — and in general it
never performs more than 3 attempts, and a non-transient error on an
attempt also makes it return null — so entry `j` contributes no id to the
`listing_images_id` array of the response. -/
theorem uploadImageWithRetry_transient_exhausts
    (post : Nat → ImgForm → Nat → UploadOutcome) (files : List String)
    (j : Nat)
    (htr : ∀ k, k < 3 →
      ∃ m, post j ⟨files.getD j "", toString (j + 1)⟩ k = .err m ∧
        containsSubstr m transientEditMsg = true) :
    uploadImageWithRetry (post j) (files.getD j "") j 3 = (none, 3) ∧
    (∀ p2 f2 i2, (uploadImageWithRetry p2 f2 i2 3).2 ≤ 3) ∧
    (∀ p2 f2 i2 m2, p2 (⟨f2, toString (i2 + 1)⟩ : ImgForm) 0 = .err m2 →
      containsSubstr m2 transientEditMsg = false →
      uploadImageWithRetry p2 f2 i2 3 = (none, 1)) ∧
    listingImagesId post files =
      (List.range files.length).filterMap fun k =>
        if k = j then none
        else (uploadImageWithRetry (post k) (files.getD k "") k 3).1 := by
  have hmain : uploadImageWithRetry (post j) (files.getD j "") j 3 = (none, 3) :=
    uploadAttemptLoop_all_transient _ _ htr
  refine ⟨hmain, ?_, ?_, ?_⟩
  · intro p2 f2 i2
    exact uploadAttemptLoop_attempts_le p2 _ 3 3 0 (by omega) (by omega)
  · intro p2 f2 i2 m2 hp hm
    rw [uploadImageWithRetry, uploadAttemptLoop]
    simp [hp, hm]
  · rw [listingImagesId_eq_filterMap]
    apply List.filterMap_congr
    intro k _
    by_cases hkj : k = j
    · subst hkj
      rw [if_pos rfl]
      simpa using congrArg Prod.fst hmain
    · simp [hkj]

/-- A post function that always fails with the transient message (C1
witness). -/
def transientPost : Nat → ImgForm → Nat → UploadOutcome :=
  fun _ _ _ => .err "Listing 10 is being edited by another process."

/-- Witness for C1: against the always-transient upstream, the single entry
is retried exactly 3 times, yields null, and the response's image id array
is empty. -/
theorem uploadImageWithRetry_transient_exhausts_witness :
    uploadImageWithRetry (transientPost 0) ((["img0.jpg"] : List String).getD 0 "") 0 3 = (none, 3) :=
  (uploadImageWithRetry_transient_exhausts transientPost ["img0.jpg"] 0
    (fun _ _ => ⟨"Listing 10 is being edited by another process.", rfl, by decide⟩)).1

/-- Claim C10: image uploads are strictly sequential and order-preserving:
`listing_images_id` is exactly the in-order filterMap of the per-entry
results over the indices of `image_files`, and entry `i` is uploaded
through the retry loop on a form whose rank field is `String(i + 1)`. -/
theorem listingImagesId_order_preserving
    (post : Nat → ImgForm → Nat → UploadOutcome) (files : List String) :
    listingImagesId post files =
      (List.range files.length).filterMap (fun i =>
        (uploadImageWithRetry (post i) (files.getD i "") i 3).1) ∧
    ∀ i f, uploadImageWithRetry (post i) f i 3 =
      uploadAttemptLoop (post i) ⟨f, toString (i + 1)⟩ 3 0 :=
  ⟨listingImagesId_eq_filterMap post files, fun _ _ => rfl⟩

/-! ## Conditional physical-dimension claim -/

/-- Claim C6: when the body defines `item_weight` with a value that is not
a positive number (non-positive or non-numeric), the violation
"item_weight must be a positive number if set" is produced if and only if
the `type` field equals "physical"; for any other or absent `type` the
`item_weight` value causes no violation. -/
theorem validateListing_item_weight_only_physical (b : ListingBody)
    (hdef : b.item_weight ≠ .undef)
    (hbad : validPositiveNumber b.item_weight = false) :
    ("item_weight must be a positive number if set" ∈ validateListing b) ↔
      b.type = .str "physical" := by
  have hw : physicalDimBad b.item_weight = true := by
    simp [physicalDimBad, hdef, hbad]
  constructor
  · intro hmem
    by_contra htype
    rw [validateListing, if_neg htype] at hmem
    simp [mem_ite_singleton] at hmem
  · intro htype
    rw [validateListing, if_pos htype]
    simp [hw]

/-- Witness for C6: a physical-type body with a negative weight produces
the violation. -/
theorem validateListing_item_weight_only_physical_witness :
    "item_weight must be a positive number if set" ∈
      validateListing { type := .str "physical", item_weight := .num (-1) } :=
  (validateListing_item_weight_only_physical
    { type := .str "physical", item_weight := .num (-1) }
    (by decide) (by decide)).mpr rfl

end EtsyListing
